import Mathlib

/-!
Shallow embedding of the resilient Binance WebSocket client of
`src/app/utils/binance_websocket_client.py` (class `BinanceWebSocketClient`)
and of the REST retry decorator of `src/utils/binance_client.py`.

Conventions of the embedding:
* machine state is passed explicitly as a `ClientState` record mirroring the
  instance attributes set in `__init__` (lines 21-44);
* the outcomes of transport operations (`websockets.connect`, `ws.send`) are
  Boolean parameters (`sockOk`, `sendOk`): `true` means the awaited call
  returned normally, `false` means it raised and the surrounding
  `try/except` caught the exception;
* wall-clock time (`time.time()`) is a rational parameter `now`; an
  `asyncio.sleep d` is recorded in a `sleeps : List Rat` field and is assumed
  to advance the clock by `d`;
* sleeps that affect neither state nor results (the random pre-subscribe
  delay of line 216, the pacing delays of lines 309/317/320) are not tracked.
-/

namespace BinanceWS

/-- A wire frame sent by the client: the JSON `SUBSCRIBE` / `UNSUBSCRIBE`
messages built at lines 219-223 and 260-264, identified by their stream
parameter. -/
inductive Frame where
  | sub (stream : String)
  | unsub (stream : String)
deriving DecidableEq, Repr

/-- The mutable attributes of `BinanceWebSocketClient` (`__init__`,
lines 21-44) that the verified claims depend on.  `ws : Bool` models
`self.ws is not None`, `subs` models the membership and insertion history of
the Python set `self.subscriptions` (only membership, add, remove and clear
are applied to it; iteration order of the Python set is NOT assumed to be
this insertion order and is always passed separately). -/
structure ClientState where
  ws : Bool
  running : Bool
  subs : List String
  reconnectDelay : Nat
  maxReconnectDelay : Nat
  lastAttempt : Rat
  connectionCooldown : Rat
  tooManyCount : Nat
deriving DecidableEq, Repr

/-- The state built by `__init__` (lines 21-44): no socket, not running, empty
subscription set, `reconnect_delay = 1`, `max_reconnect_delay = 300`,
`last_connection_attempt = 0`, `connection_cooldown = 10`,
`too_many_requests_count = 0`. -/
def initState : ClientState where
  ws := false
  running := false
  subs := []
  reconnectDelay := 1
  maxReconnectDelay := 300
  lastAttempt := 0
  connectionCooldown := 10
  tooManyCount := 0

/-- `self.subscriptions.add(stream)` on the insertion-history view of the
Python set: a no-op when the element is present, appended otherwise. -/
def pySetAdd (l : List String) (s : String) : List String :=
  if s ∈ l then l else l ++ [s]

/-- Result of `connect` (lines 46-87): the state after the call, the returned
Boolean, and the `asyncio.sleep` durations awaited inside the call, in
order. -/
structure ConnectResult where
  state : ClientState
  ok : Bool
  sleeps : List Rat
deriving DecidableEq, Repr

/-- `connect(self)` (lines 46-87).  If called within `connection_cooldown`
seconds of the previous attempt it first awaits the full cooldown
(lines 54-57) and then still proceeds with exactly one transport attempt —
it never rejects the call because of the cooldown.  `last_connection_attempt`
is re-read from the clock after the sleep (line 59).  On transport success
(`sockOk = true`) the socket is (re)established and `running` is set; any
previously open socket is closed first (lines 63-67), so no duplicate
connection survives.  On transport failure the exception is caught,
`running` is cleared, the current `reconnect_delay` is slept, and the delay
is doubled up to `max_reconnect_delay` (lines 79-87). -/
def connect (st : ClientState) (now : Rat) (sockOk : Bool) : ConnectResult :=
  let cooldownSleeps : List Rat :=
    if now - st.lastAttempt < st.connectionCooldown then [st.connectionCooldown] else []
  let st1 : ClientState := { st with lastAttempt := now + cooldownSleeps.sum }
  if sockOk then
    { state := { st1 with ws := true, running := true }, ok := true, sleeps := cooldownSleeps }
  else
    let st2 : ClientState :=
      { st1 with running := false, reconnectDelay := min (st1.reconnectDelay * 2) st1.maxReconnectDelay }
    { state := st2, ok := false, sleeps := cooldownSleeps ++ [(st1.reconnectDelay : Rat)] }

/-- Result of a `subscribe`/`unsubscribe` call: new state, returned Boolean,
and the frames actually delivered to the peer. -/
structure CallResult where
  state : ClientState
  ok : Bool
  frames : List Frame
deriving DecidableEq, Repr

/-- The body of `subscribe` after the connection guard (lines 210-239):
already-subscribed streams are a no-op returning `True` (lines 212-213);
otherwise the SUBSCRIBE frame is sent under the socket lock and only on a
successful send is the stream added to `self.subscriptions` and
`reconnect_delay` reset to 1 (lines 226-236); an exception in the send is
caught and `False` is returned with the registry untouched (lines 237-239). -/
def subscribeCore (st : ClientState) (stream : String) (sendOk : Bool) : CallResult :=
  if stream ∈ st.subs then
    { state := st, ok := true, frames := [] }
  else if sendOk then
    { state := { st with subs := pySetAdd st.subs stream, reconnectDelay := 1 },
      ok := true, frames := [Frame.sub stream] }
  else
    { state := st, ok := false, frames := [] }

/-- `subscribe(self, stream)` (lines 196-239).  When not running or without a
socket it first calls `connect` and returns `False` if that fails
(lines 206-208); otherwise it runs the subscribe body. -/
def subscribe (st : ClientState) (stream : String) (now : Rat)
    (sockOk sendOk : Bool) : CallResult :=
  if !st.running || !st.ws then
    let c := connect st now sockOk
    if c.ok then subscribeCore c.state stream sendOk
    else { state := c.state, ok := false, frames := [] }
  else
    subscribeCore st stream sendOk

/-- `unsubscribe(self, stream)` (lines 241-277).  When not running or without
a socket it returns `False` immediately, leaving the registry untouched
(lines 251-252); a stream not in the registry is a no-op returning `True`
(lines 256-257); otherwise the UNSUBSCRIBE frame is sent and only on a
successful send is the stream removed (lines 267-274); a send exception is
caught and `False` returned (lines 275-277). -/
def unsubscribe (st : ClientState) (stream : String) (sendOk : Bool) : CallResult :=
  if !st.running || !st.ws then
    { state := st, ok := false, frames := [] }
  else if stream ∈ st.subs then
    if sendOk then
      { state := { st with subs := st.subs.erase stream },
        ok := true, frames := [Frame.unsub stream] }
    else
      { state := st, ok := false, frames := [] }
  else
    { state := st, ok := true, frames := [] }

/-- `close(self)` (lines 327-351): stops the handler, closes the socket and
sets `self.ws = None`.  It does NOT touch `self.subscriptions`. -/
def closeClient (st : ClientState) : ClientState :=
  { st with running := false, ws := false }

/-- Result of a `resubscribe_all` pass and of its inner loop: final state,
the returned Boolean (`success`), the streams for which a subscribe attempt
was made, in order, and the frames delivered. -/
structure ResubResult where
  state : ClientState
  ok : Bool
  attempted : List String
  frames : List Frame
deriving DecidableEq, Repr

/-- The subscription loop of `resubscribe_all` (lines 296-320).  The code
partitions `current_subscriptions` into consecutive batches of
`subscription_batch_size` and iterates the streams of each batch in order,
so the composite iteration visits `current_subscriptions` exactly in list
order; the per-stream, per-batch and global-pause sleeps (lines 309, 317,
320) only pace the loop and change no state, so they are not tracked here.
Each stream is passed to `self.subscribe`; `self.running` and `self.ws` are
unchanged by those calls, so the reconnect guard inside `subscribe` is not
taken and the call reduces to `subscribeCore`.  A failed attempt sets
`success = False` (lines 304-306) and the loop continues with the remaining
streams. -/
def resubLoop (st : ClientState) (streams : List String)
    (sendOk : String → Bool) : ResubResult :=
  match streams with
  | [] => { state := st, ok := true, attempted := [], frames := [] }
  | s :: rest =>
    let r := subscribeCore st s (sendOk s)
    let t := resubLoop r.state rest sendOk
    { state := t.state, ok := r.ok && t.ok,
      attempted := s :: t.attempted, frames := r.frames ++ t.frames }

/-- `resubscribe_all(self)` (lines 279-325).  After the connection guard
(lines 286-288) it snapshots `list(self.subscriptions)` — the snapshot order
is whatever enumeration the Python set produces at run time, so it is passed
here as the `enum` parameter — then CLEARS `self.subscriptions`
(lines 292-293) and replays the snapshot through `subscribe`
(lines 296-320). -/
def resubscribe_all (st : ClientState) (enum : List String) (now : Rat)
    (sockOk : Bool) (sendOk : String → Bool) : ResubResult :=
  if !st.running || !st.ws then
    let c := connect st now sockOk
    if c.ok then resubLoop { c.state with subs := [] } enum sendOk
    else { state := c.state, ok := false, attempted := [], frames := [] }
  else
    resubLoop { st with subs := [] } enum sendOk

/-- A valid result of `list(s)` for a Python set `s`: some sequence listing
each member exactly once.  CPython specifies no more than that — the actual
order is the hash-table order, which for strings depends on the per-process
hash seed (`PYTHONHASHSEED`). -/
def IsSetEnumeration (enum elems : List String) : Prop :=
  enum.Perm elems

/-- One iteration of the `message_handler` read loop in the path where a
frame was received (lines 149-161): `json.loads` either yields a payload,
which `process_message` appends to `self.message_queue` (lines 186-194), or
raises `JSONDecodeError`, which is caught and logged and the frame dropped
(lines 158-159).  The returned Boolean is the value of the loop condition
`self.running` (line 140) after the iteration.  The decoded payload is left
abstract in `α`. -/
def handlerFrameStep {α : Type} (st : ClientState) (queue : List α)
    (decoded : Option α) : ClientState × List α × Bool :=
  match decoded with
  | some d => (st, queue ++ [d], st.running)
  | none => (st, queue, st.running)

/-- The `except ConnectionClosedError` branch of `message_handler`
(lines 162-173), as a function of the close code: it returns the updated
state and the back-off duration slept before the reconnect attempt.  For
close code 1008 (policy violation / too many requests) the sleep is
`initial_too_many_requests_pause = 60` on the first occurrence and
`reconnect_delay * too_many_requests_backoff` with factor 15 afterwards
(lines 164-169); any other code sleeps the ordinary `reconnect_delay`
(lines 170-173).  Both branches then double `reconnect_delay` up to the
cap. -/
def handlerClosedBranch (st : ClientState) (code : Nat) : ClientState × Rat :=
  let doubled := min (st.reconnectDelay * 2) st.maxReconnectDelay
  if code = 1008 then
    let cnt := st.tooManyCount + 1
    let backoff : Rat := if cnt = 1 then 60 else (st.reconnectDelay : Rat) * 15
    ({ st with tooManyCount := cnt, reconnectDelay := doubled }, backoff)
  else
    ({ st with reconnectDelay := doubled }, (st.reconnectDelay : Rat))

/-- The back-off sleeps observed over `n` consecutive failed `connect`
attempts with no intervening success: attempt `k` sleeps the
`reconnect_delay` current at its start (line 84) and then doubles it
(line 85). -/
def failDelays (st : ClientState) (t : Rat) : Nat → List Nat
  | 0 => []
  | n + 1 => st.reconnectDelay :: failDelays (connect st t false).state t n

end BinanceWS

namespace RestClient

/-!
Embedding of the `retry` decorator (src/utils/binance_client.py,
lines 71-110) applied on top of `cache_result` (lines 49-68) to a REST
accessor whose body catches `aiohttp.ClientError` and recursively re-invokes
the fully decorated accessor (`get_symbols`, lines 248-269; `get_klines` and
`get_current_price` have the same shape).
-/

/-- Outcome of one underlying HTTP request attempt: it returns data, raises
`aiohttp.ClientError` (the proxy-failure class the accessor body catches at
line 265), or raises any other exception (e.g. the `API error` raised at
line 260 on a non-200 status, or a ban). -/
inductive ReqOutcome where
  | ok
  | clientError
  | apiError
deriving DecidableEq, Repr

/-- Observable result of a decorated accessor call.  `pos` is the total
number of underlying requests issued so far (each request consumes one
position of the outcome trace); `cached` records whether a successful result
has been stored by `cache_result`.  `fuelOut` means the bookkeeping budget
`fuel` was exhausted — in the real program this corresponds to the
recursion/iteration continuing past any finite budget. -/
inductive CallOut where
  | ret (pos : Nat) (cached : Bool)
  | exn (pos : Nat) (cached : Bool)
  | fuelOut
deriving DecidableEq, Repr

/-- Execution of the `retry`-wrapped, `cache_result`-wrapped accessor.
`trace n` is the outcome of the `n`-th underlying request; `remaining` is
the number of attempts the current `while retries < max_retries` loop
(lines 79-108) still has, starting at `MAX_RETRIES = 3` (line 29); `fuel`
bounds the total number of execution steps and strictly decreases at every
recursive occurrence, so one unit is consumed per attempt.  An attempt first
consults the cache (lines 58-61): on a hit it returns without issuing a
request.  Otherwise the body runs one request:
* success returns the data and caches it (lines 64-66);
* `aiohttp.ClientError` is caught by the body itself, which re-invokes the
  fully decorated accessor `self.get_symbols()` (lines 265-269) — a fresh
  retry loop with a fresh `MAX_RETRIES` budget; an exception raised by that
  nested call propagates out of the `except` block into the current retry
  loop;
* any other exception is caught by the retry loop, which re-raises it once
  `retries == max_retries` (lines 93-95) and otherwise sleeps and retries.
-/
def runRetry (trace : Nat → ReqOutcome) :
    (fuel : Nat) → (pos : Nat) → (cached : Bool) → (remaining : Nat) → CallOut
  | 0, _, _, _ => CallOut.fuelOut
  | _ + 1, pos, cached, 0 => CallOut.exn pos cached
  | fuel + 1, pos, cached, r + 1 =>
    if cached then CallOut.ret pos cached
    else
      match trace pos with
      | ReqOutcome.ok => CallOut.ret (pos + 1) true
      | ReqOutcome.apiError =>
        if r = 0 then CallOut.exn (pos + 1) cached
        else runRetry trace fuel (pos + 1) cached r
      | ReqOutcome.clientError =>
        match runRetry trace fuel (pos + 1) cached 3 with
        | CallOut.ret p c => CallOut.ret p c
        | CallOut.fuelOut => CallOut.fuelOut
        | CallOut.exn p c =>
          if r = 0 then CallOut.exn p c
          else runRetry trace fuel p c r

/-- A call to the decorated `get_symbols` with an empty cache: the retry
loop starts with the `MAX_RETRIES = 3` attempt budget. -/
def getSymbolsCall (trace : Nat → ReqOutcome) (fuel : Nat) : CallOut :=
  runRetry trace fuel 0 false 3

end RestClient

open BinanceWS RestClient

/-- Claim C9: a received frame that fails to decode is logged and dropped;
the read loop continues with the next frame, the queue is unchanged, and no
field of the connection state changes, so no disconnect or reconnect is
triggered by the malformed frame. -/
theorem C9_decode_failure_harmless (α : Type) (st : ClientState) (queue : List α) :
    handlerFrameStep st queue (none : Option α) = (st, queue, st.running) := rfl

/-- Claim C5: two `connect()` calls closer together than the cooldown make
the second call first await the full `connection_cooldown` internally
(its first sleep is the cooldown) and then proceed: the returned Boolean is
exactly the outcome of the single transport attempt, never a rejection
caused by the cooldown. -/
theorem C5_cooldown_delays_not_rejects (st : ClientState) (now : Rat) (sockOk : Bool)
    (h : now - st.lastAttempt < st.connectionCooldown) :
    (connect st now sockOk).sleeps.head? = some st.connectionCooldown
      ∧ (connect st now sockOk).ok = sockOk := by
  cases sockOk <;> simp [connect, h]

/-- Witness for C5: a second `connect` five seconds after the first (cooldown
is ten seconds) sleeps the cooldown and still succeeds. -/
theorem C5_cooldown_delays_not_rejects_witness :
    ((5 : Rat) - initState.lastAttempt < initState.connectionCooldown)
      ∧ ((connect initState 5 true).sleeps.head? = some initState.connectionCooldown
          ∧ (connect initState 5 true).ok = true) :=
  ⟨by norm_num [initState],
    C5_cooldown_delays_not_rejects initState 5 true (by norm_num [initState])⟩

/-- Claim C1 (code bug, evaluated at the failing input): a registry holding
one stream, a resubscription pass whose single subscribe send fails.  The
pass clears `self.subscriptions` (line 293) and only re-adds streams whose
send succeeds, so the stream is permanently lost from the registry although
neither `unsubscribe` nor `close` was ever called; `close` itself never
clears the registry. -/
theorem C1_resubscription_loses_failed_stream :
    "btcusdt@ticker"
        ∈ ({ initState with running := true, ws := true, subs := ["btcusdt@ticker"] } : ClientState).subs
      ∧ (resubscribe_all { initState with running := true, ws := true, subs := ["btcusdt@ticker"] }
            ["btcusdt@ticker"] 0 true (fun _ => false)).state.subs = []
      ∧ (closeClient { initState with running := true, ws := true, subs := ["btcusdt@ticker"] }).subs
          = ["btcusdt@ticker"] := by
  decide

/-- Claim C6 (code bug, evaluated at the failing input): the snapshot taken
by `resubscribe_all` is `list(self.subscriptions)` over a Python `set`,
whose iteration order is the seed-dependent hash order, constrained only to
enumerate each member once.  For the registry whose insertion order is
`btcusdt@kline_1m` then `ethusdt@ticker`, the reversed enumeration is a
valid `list(set)` result, and the pass then replays the streams in that
order — nothing in the code forces the deterministic insertion order the
claim asserts. -/
theorem C6_snapshot_order_not_insertion :
    IsSetEnumeration ["ethusdt@ticker", "btcusdt@kline_1m"]
        ({ initState with running := true, ws := true, subs := ["btcusdt@kline_1m", "ethusdt@ticker"] } : ClientState).subs
      ∧ (resubscribe_all
            { initState with running := true, ws := true, subs := ["btcusdt@kline_1m", "ethusdt@ticker"] }
            ["ethusdt@ticker", "btcusdt@kline_1m"] 0 true (fun _ => true)).attempted
          = ["ethusdt@ticker", "btcusdt@kline_1m"]
      ∧ ["ethusdt@ticker", "btcusdt@kline_1m"]
          ≠ ({ initState with running := true, ws := true, subs := ["btcusdt@kline_1m", "ethusdt@ticker"] } : ClientState).subs := by
  refine ⟨?_, by decide, by decide⟩
  exact List.Perm.swap _ _ _

/-- Counterexample to claim C2 as stated: with the client disconnected and
the reconnect attempt failing, `subscribe` returns `False` WITHOUT adding
the stream to the registry, and `unsubscribe` returns `False` WITHOUT
removing a stream that is in the registry — the registry edit is refused
while the connection is down. -/
theorem C2_subscribe_disconnected_counterexample :
    (subscribe initState "btcusdt@ticker" 0 false false).ok = false
      ∧ "btcusdt@ticker" ∉ (subscribe initState "btcusdt@ticker" 0 false false).state.subs
      ∧ (unsubscribe { initState with subs := ["btcusdt@ticker"] } "btcusdt@ticker" true).ok = false
      ∧ "btcusdt@ticker"
          ∈ (unsubscribe { initState with subs := ["btcusdt@ticker"] } "btcusdt@ticker" true).state.subs := by
  decide

/-- Claim C2 as amended: registry edits are wire-first, not unconditional.
While the client is not running, `subscribe` (with the implicit reconnect
failing) and `unsubscribe` leave the registry untouched and report failure;
membership changes only through a successful wire attempt: a connected
`subscribe` whose send succeeds ends with the stream in the registry, and a
connected `unsubscribe` whose send succeeds ends with it removed (and
reports success). -/
theorem C2_registry_edits_wire_first (st : ClientState) (s : String) (t : Rat)
    (h : st.running = false) :
    (subscribe st s t false false).state.subs = st.subs
      ∧ (subscribe st s t false false).ok = false
      ∧ (unsubscribe st s true).state.subs = st.subs
      ∧ (unsubscribe st s true).ok = false
      ∧ s ∈ (subscribe { st with running := true, ws := true } s t true true).state.subs
      ∧ (unsubscribe { st with running := true, ws := true } s true).state.subs = st.subs.erase s
      ∧ (unsubscribe { st with running := true, ws := true } s true).ok = true := by
  refine ⟨?_, ?_, ?_, ?_, ?_, ?_, ?_⟩
  · simp [subscribe, connect, h]
  · simp [subscribe, connect, h]
  · simp [unsubscribe, h]
  · simp [unsubscribe, h]
  · by_cases hm : s ∈ st.subs <;> simp [subscribe, subscribeCore, pySetAdd, hm]
  · by_cases hm : s ∈ st.subs <;>
      simp [unsubscribe, hm, List.erase_of_not_mem]
  · by_cases hm : s ∈ st.subs <;> simp [unsubscribe, hm]

/-- Witness for C2 as amended, at the freshly constructed client and the
stream `btcusdt@ticker`. -/
theorem C2_registry_edits_wire_first_witness :
    initState.running = false
      ∧ ((subscribe initState "btcusdt@ticker" 0 false false).state.subs = initState.subs
          ∧ (subscribe initState "btcusdt@ticker" 0 false false).ok = false
          ∧ (unsubscribe initState "btcusdt@ticker" true).state.subs = initState.subs
          ∧ (unsubscribe initState "btcusdt@ticker" true).ok = false
          ∧ "btcusdt@ticker"
              ∈ (subscribe { initState with running := true, ws := true } "btcusdt@ticker" 0 true true).state.subs
          ∧ (unsubscribe { initState with running := true, ws := true } "btcusdt@ticker" true).state.subs
              = initState.subs.erase "btcusdt@ticker"
          ∧ (unsubscribe { initState with running := true, ws := true } "btcusdt@ticker" true).ok = true) :=
  ⟨rfl, C2_registry_edits_wire_first initState "btcusdt@ticker" 0 rfl⟩

/-- Counterexample to claim C8 as stated: unsubscribing a stream that is not
in the registry is NOT unconditionally a no-op reporting success — while the
client is disconnected (`running = False` or `ws is None`, lines 251-252)
the call reports failure. -/
theorem C8_unsubscribe_absent_disconnected_counterexample :
    "ethusdt@ticker" ∉ initState.subs
      ∧ (unsubscribe initState "ethusdt@ticker" true).ok = false := by
  decide

/-- Claim C8 as amended: on a connected client, `subscribe(S); subscribe(S)`
yields the same registry state as `subscribe(S)` alone (the second call is a
no-op reporting success), the two calls together deliver exactly one
SUBSCRIBE frame for `S`; unsubscribing an absent stream while connected is a
no-op reporting success, while disconnected it is still a registry no-op but
reports failure. -/
theorem C8_subscribe_idempotent_unsubscribe_noop (st : ClientState) (s : String)
    (t : Rat) (b : Bool) (hr : st.running = true) (hw : st.ws = true)
    (hs : s ∉ st.subs) :
    (subscribe (subscribe st s t true true).state s t true b).state
        = (subscribe st s t true true).state
      ∧ (subscribe (subscribe st s t true true).state s t true b).ok = true
      ∧ ((subscribe st s t true true).frames
          ++ (subscribe (subscribe st s t true true).state s t true b).frames)
        = [Frame.sub s]
      ∧ (unsubscribe st s b).state = st
      ∧ (unsubscribe st s b).ok = true
      ∧ (unsubscribe { st with running := false } s b).state.subs = st.subs
      ∧ (unsubscribe { st with running := false } s b).ok = false := by
  have h1 : subscribe st s t true true
      = { state := { st with subs := pySetAdd st.subs s, reconnectDelay := 1 },
          ok := true, frames := [Frame.sub s] } := by
    simp [subscribe, subscribeCore, hr, hw, hs]
  have hmem : s ∈ pySetAdd st.subs s := by simp [pySetAdd, hs]
  refine ⟨?_, ?_, ?_, ?_, ?_, ?_, ?_⟩
  · rw [h1]; simp [subscribe, subscribeCore, hr, hw, hmem]
  · rw [h1]; simp [subscribe, subscribeCore, hr, hw, hmem]
  · rw [h1]; simp [subscribe, subscribeCore, hr, hw, hmem]
  · simp [unsubscribe, hr, hw, hs]
  · simp [unsubscribe, hr, hw, hs]
  · simp [unsubscribe]
  · simp [unsubscribe]

/-- Witness for C8 as amended, on a connected client with an empty registry
and the stream `btcusdt@kline_1m`. -/
theorem C8_subscribe_idempotent_unsubscribe_noop_witness :
    (({ initState with running := true, ws := true } : ClientState).running = true
        ∧ ({ initState with running := true, ws := true } : ClientState).ws = true
        ∧ "btcusdt@kline_1m" ∉ ({ initState with running := true, ws := true } : ClientState).subs)
      ∧ ((subscribe (subscribe { initState with running := true, ws := true } "btcusdt@kline_1m" 0 true true).state "btcusdt@kline_1m" 0 true true).state
            = (subscribe { initState with running := true, ws := true } "btcusdt@kline_1m" 0 true true).state
          ∧ (subscribe (subscribe { initState with running := true, ws := true } "btcusdt@kline_1m" 0 true true).state "btcusdt@kline_1m" 0 true true).ok = true
          ∧ ((subscribe { initState with running := true, ws := true } "btcusdt@kline_1m" 0 true true).frames
              ++ (subscribe (subscribe { initState with running := true, ws := true } "btcusdt@kline_1m" 0 true true).state "btcusdt@kline_1m" 0 true true).frames)
            = [Frame.sub "btcusdt@kline_1m"]
          ∧ (unsubscribe { initState with running := true, ws := true } "btcusdt@kline_1m" true).state
              = { initState with running := true, ws := true }
          ∧ (unsubscribe { initState with running := true, ws := true } "btcusdt@kline_1m" true).ok = true
          ∧ (unsubscribe { ({ initState with running := true, ws := true } : ClientState) with running := false } "btcusdt@kline_1m" true).state.subs
              = ({ initState with running := true, ws := true } : ClientState).subs
          ∧ (unsubscribe { ({ initState with running := true, ws := true } : ClientState) with running := false } "btcusdt@kline_1m" true).ok = false) :=
  ⟨⟨rfl, rfl, by decide⟩,
    C8_subscribe_idempotent_unsubscribe_noop { initState with running := true, ws := true }
      "btcusdt@kline_1m" 0 true rfl rfl (by decide)⟩

/-- Counterexample to claim C4 as stated: with the ordinary back-off already
grown to 128 seconds (seven consecutive failed connects), a FIRST
policy-violation close (code 1008) sleeps the fixed
`initial_too_many_requests_pause = 60` seconds, which is NOT strictly
greater than — indeed less than — the ordinary back-off delay of 128
seconds that a non-1008 close would sleep in the same state. -/
theorem C4_first_penalty_not_dominant_counterexample :
    (handlerClosedBranch { initState with reconnectDelay := 128 } 1008).2 = 60
      ∧ (handlerClosedBranch { initState with reconnectDelay := 128 } 1006).2 = 128
      ∧ ¬ ((handlerClosedBranch { initState with reconnectDelay := 128 } 1006).2
            < (handlerClosedBranch { initState with reconnectDelay := 128 } 1008).2) := by
  refine ⟨?_, ?_, ?_⟩ <;> norm_num [handlerClosedBranch, initState]

/-- Claim C4 as amended: on a policy-violation close (code 1008) the first
occurrence sleeps the fixed 60-second penalty — regardless of, and not
necessarily larger than, the current ordinary back-off — and every later
occurrence sleeps `reconnect_delay * 15`, which IS strictly greater than the
ordinary back-off delay a non-1008 close would sleep in the same state. -/
theorem C4_penalty_schedule (st : ClientState) (hd : 1 ≤ st.reconnectDelay) :
    (handlerClosedBranch { st with tooManyCount := 0 } 1008).2 = 60
      ∧ (handlerClosedBranch { st with tooManyCount := st.tooManyCount + 1 } 1008).2
          = (st.reconnectDelay : Rat) * 15
      ∧ (handlerClosedBranch { st with tooManyCount := st.tooManyCount + 1 } 1006).2
          < (handlerClosedBranch { st with tooManyCount := st.tooManyCount + 1 } 1008).2 := by
  have hd1 : (1 : Rat) ≤ (st.reconnectDelay : Rat) := by exact_mod_cast hd
  refine ⟨by simp [handlerClosedBranch], by simp [handlerClosedBranch], ?_⟩
  simp only [handlerClosedBranch]
  norm_num
  nlinarith

/-- Witness for C4 as amended, at the fresh client state with
`reconnect_delay = 1`. -/
theorem C4_penalty_schedule_witness :
    1 ≤ initState.reconnectDelay
      ∧ ((handlerClosedBranch { initState with tooManyCount := 0 } 1008).2 = 60
          ∧ (handlerClosedBranch { initState with tooManyCount := initState.tooManyCount + 1 } 1008).2
              = (initState.reconnectDelay : Rat) * 15
          ∧ (handlerClosedBranch { initState with tooManyCount := initState.tooManyCount + 1 } 1006).2
              < (handlerClosedBranch { initState with tooManyCount := initState.tooManyCount + 1 } 1008).2) :=
  ⟨by decide, C4_penalty_schedule initState (by decide)⟩

theorem min_double_pow (d k : Nat) :
    min (min (d * 2) 300 * 2 ^ k) 300 = min (d * 2 ^ (k + 1)) 300 := by
  rcases le_total (d * 2) 300 with h | h
  · rw [min_eq_left h]
    congr 1
    rw [pow_succ]
    ring
  · rw [min_eq_right h]
    have h1 : (300 : Nat) ≤ 300 * 2 ^ k :=
      Nat.le_mul_of_pos_right 300 (pow_pos (by norm_num) k)
    have h2 : (300 : Nat) ≤ d * 2 ^ (k + 1) := by
      calc (300 : Nat) ≤ d * 2 := h
        _ ≤ d * 2 * 2 ^ k := Nat.le_mul_of_pos_right _ (pow_pos (by norm_num) k)
        _ = d * 2 ^ (k + 1) := by rw [pow_succ]; ring
    rw [min_eq_right h1, min_eq_right h2]

theorem failDelays_formula (t : Rat) :
    ∀ (n : Nat) (st : ClientState), st.maxReconnectDelay = 300 →
      st.reconnectDelay ≤ 300 →
      failDelays st t n = (List.range n).map (fun k => min (st.reconnectDelay * 2 ^ k) 300) := by
  intro n
  induction n with
  | zero => intro st _ _; simp [failDelays]
  | succ m ih =>
    intro st hmax hle
    have hst : (connect st t false).state.reconnectDelay = min (st.reconnectDelay * 2) 300 := by
      simp [connect, hmax]
    have hmax2 : (connect st t false).state.maxReconnectDelay = 300 := by
      simp [connect, hmax]
    have hle2 : (connect st t false).state.reconnectDelay ≤ 300 := by
      rw [hst]; exact min_le_right _ _
    rw [failDelays, ih _ hmax2 hle2, hst, List.range_succ_eq_map]
    simp only [List.map_cons, List.map_map]
    congr 1
    · simp [min_eq_left hle]
    · have hfun : (fun k => min (min (st.reconnectDelay * 2) 300 * 2 ^ k) 300)
          = ((fun k => min (st.reconnectDelay * 2 ^ k) 300) ∘ Nat.succ) := by
        funext k
        simpa [Function.comp] using min_double_pow st.reconnectDelay k
      rw [hfun]

theorem failDelays_nondecreasing (t : Rat) :
    ∀ (n : Nat) (st : ClientState), st.maxReconnectDelay = 300 →
      st.reconnectDelay ≤ 300 →
      List.Chain' (· ≤ ·) (failDelays st t n) := by
  intro n
  induction n with
  | zero => intro st _ _; simp [failDelays]
  | succ m ih =>
    intro st hmax hle
    have hst : (connect st t false).state.reconnectDelay = min (st.reconnectDelay * 2) 300 := by
      simp [connect, hmax]
    have hmax2 : (connect st t false).state.maxReconnectDelay = 300 := by
      simp [connect, hmax]
    have hle2 : (connect st t false).state.reconnectDelay ≤ 300 := by
      rw [hst]; exact min_le_right _ _
    rw [failDelays, List.chain'_cons']
    refine ⟨?_, ih _ hmax2 hle2⟩
    intro y hy
    cases m with
    | zero => simp [failDelays] at hy
    | succ k =>
      rw [failDelays] at hy
      simp only [List.head?_cons, Option.mem_def, Option.some.injEq] at hy
      rw [← hy, hst]
      exact le_min (by omega) hle

/-- Counterexample to claim C3 as stated: after three consecutive failed
connects from a fresh client (delays 1, 2, 4; `reconnect_delay` now 8), a
SUCCESSFUL `connect` leaves `reconnect_delay` at 8, so the next failed
attempt sleeps 8 seconds — the successful connection does not reset the next
delay to the base value of 1 second. -/
theorem C3_connect_success_no_reset_counterexample :
    failDelays initState 0 3 = [1, 2, 4]
      ∧ (connect (connect (connect (connect initState 0 false).state 0 false).state
            0 false).state 0 true).state.reconnectDelay = 8
      ∧ failDelays (connect (connect (connect (connect initState 0 false).state
            0 false).state 0 false).state 0 true).state 0 1 = [8]
      ∧ (8 : Nat) ≠ 1 := by
  refine ⟨by decide, by decide, by decide, by decide⟩

/-- Claim C3 as amended: over any run of consecutive failed connect attempts
from a fresh client the observed delays are exactly
`min(1 * 2 ^ attempt, 300)` and are non-decreasing; but the delay is reset
to the base value 1 by a successful SUBSCRIBE (line 234), not by a
successful connection, which leaves `reconnect_delay` unchanged. -/
theorem C3_backoff_formula_and_reset (n : Nat) (t : Rat) (st : ClientState)
    (s : String) (hs : s ∉ st.subs) :
    failDelays initState t n = (List.range n).map (fun k => min (2 ^ k) 300)
      ∧ List.Chain' (· ≤ ·) (failDelays initState t n)
      ∧ (connect st t true).state.reconnectDelay = st.reconnectDelay
      ∧ (subscribeCore st s true).state.reconnectDelay = 1 := by
  refine ⟨?_, ?_, ?_, ?_⟩
  · have h := failDelays_formula t n initState rfl (by norm_num [initState])
    simpa [initState] using h
  · exact failDelays_nondecreasing t n initState rfl (by norm_num [initState])
  · simp [connect]
  · simp [subscribeCore, hs]

/-- Witness for C3 as amended, with five failed attempts and the stream
`btcusdt@ticker` on the fresh client. -/
theorem C3_backoff_formula_and_reset_witness :
    "btcusdt@ticker" ∉ initState.subs
      ∧ (failDelays initState 0 5 = (List.range 5).map (fun k => min (2 ^ k) 300)
          ∧ List.Chain' (· ≤ ·) (failDelays initState 0 5)
          ∧ (connect initState 0 true).state.reconnectDelay = initState.reconnectDelay
          ∧ (subscribeCore initState "btcusdt@ticker" true).state.reconnectDelay = 1) :=
  ⟨by decide, C3_backoff_formula_and_reset 5 0 initState "btcusdt@ticker" (by decide)⟩

theorem resubLoop_spec :
    ∀ (enum : List String) (st : ClientState) (sendOk : String → Bool),
      (∀ x ∈ st.subs, sendOk x = true) →
      (resubLoop st enum sendOk).attempted = enum
        ∧ (resubLoop st enum sendOk).ok = enum.all sendOk
        ∧ (∀ x ∈ (resubLoop st enum sendOk).state.subs, sendOk x = true) := by
  intro enum
  induction enum with
  | nil =>
    intro st sendOk hinv
    exact ⟨rfl, rfl, hinv⟩
  | cons s rest ih =>
    intro st sendOk hinv
    by_cases hm : s ∈ st.subs
    · have hok : sendOk s = true := hinv s hm
      have hcore : subscribeCore st s true
          = { state := st, ok := true, frames := [] } := by
        simp [subscribeCore, hm]
      obtain ⟨h1, h2, h3⟩ := ih st sendOk hinv
      refine ⟨?_, ?_, ?_⟩
      · simp [resubLoop, hok, hcore, h1]
      · simp [resubLoop, hok, hcore, h2]
      · simpa [resubLoop, hok, hcore] using h3
    · cases hsend : sendOk s
      · have hcore : subscribeCore st s false
            = { state := st, ok := false, frames := [] } := by
          simp [subscribeCore, hm]
        obtain ⟨h1, h2, h3⟩ := ih st sendOk hinv
        refine ⟨?_, ?_, ?_⟩
        · simp [resubLoop, hsend, hcore, h1]
        · simp [resubLoop, hsend, hcore, h2]
        · simpa [resubLoop, hsend, hcore] using h3
      · have hcore : subscribeCore st s true
            = { state := { st with subs := pySetAdd st.subs s, reconnectDelay := 1 },
                ok := true, frames := [Frame.sub s] } := by
          simp [subscribeCore, hm]
        have hinv2 : ∀ x ∈ ({ st with subs := pySetAdd st.subs s, reconnectDelay := 1 } : ClientState).subs,
            sendOk x = true := by
          intro x hx
          rw [pySetAdd, if_neg hm] at hx
          rcases List.mem_append.mp hx with hx2 | hx2
          · exact hinv x hx2
          · rw [List.mem_singleton.mp hx2]; exact hsend
        obtain ⟨h1, h2, h3⟩ := ih _ sendOk hinv2
        refine ⟨?_, ?_, ?_⟩
        · simp [resubLoop, hsend, hcore, h1]
        · simp [resubLoop, hsend, hcore, h2]
        · simpa [resubLoop, hsend, hcore] using h3

/-- Claim C7: during a resubscription pass on a connected client, a failed
subscribe attempt does not stop the pass — every stream of the snapshot is
attempted, in snapshot order, and the overall result is `True` exactly when
every individual attempt succeeded, so any failure is reported as partial
failure of the whole pass. -/
theorem C7_resub_attempts_every_stream (st : ClientState) (enum : List String)
    (sendOk : String → Bool) (now : Rat) (sockOk : Bool)
    (hr : st.running = true) (hw : st.ws = true) :
    (resubscribe_all st enum now sockOk sendOk).attempted = enum
      ∧ (resubscribe_all st enum now sockOk sendOk).ok = enum.all sendOk := by
  obtain ⟨h1, h2, _⟩ := resubLoop_spec enum { st with subs := [] } sendOk (by simp)
  have hc : (!st.running || !st.ws) = false := by rw [hr, hw]; rfl
  rw [resubscribe_all, hc]
  simp only [Bool.false_eq_true, if_false]
  exact ⟨h1, h2⟩

/-- Witness for C7: a two-stream snapshot whose first subscribe attempt
fails; both streams are still attempted and the pass reports failure. -/
theorem C7_resub_attempts_every_stream_witness :
    (resubscribe_all { initState with running := true, ws := true }
          ["ethusdt@ticker", "btcusdt@kline_1m"] 0 true
          (fun x => x == "btcusdt@kline_1m")).attempted
        = ["ethusdt@ticker", "btcusdt@kline_1m"]
      ∧ (resubscribe_all { initState with running := true, ws := true }
            ["ethusdt@ticker", "btcusdt@kline_1m"] 0 true
            (fun x => x == "btcusdt@kline_1m")).ok
          = (["ethusdt@ticker", "btcusdt@kline_1m"].all (fun x => x == "btcusdt@kline_1m")) :=
  C7_resub_attempts_every_stream { initState with running := true, ws := true }
    ["ethusdt@ticker", "btcusdt@kline_1m"] (fun x => x == "btcusdt@kline_1m") 0 true rfl rfl

theorem runRetry_clientError_fuelOut (fuel : Nat) :
    ∀ (pos r : Nat),
      runRetry (fun _ => ReqOutcome.clientError) fuel pos false (r + 1)
        = CallOut.fuelOut := by
  induction fuel with
  | zero => intro pos r; rfl
  | succ f ih =>
    intro pos r
    have hinner : runRetry (fun _ => ReqOutcome.clientError) f (pos + 1) false 3
        = CallOut.fuelOut := by
      cases f with
      | zero => rfl
      | succ g => exact ih (pos + 1) 2
    simp [runRetry, hinner]

/-- Claim C10 (code bug, evaluated at failing inputs): the retry decorator
bounds each retry LOOP to `MAX_RETRIES = 3` underlying requests — when every
request raises a plain API error, the call issues exactly 3 requests and
re-raises, as the claim says — but the accessor body's recursive
re-invocation of the fully decorated accessor after an `aiohttp.ClientError`
restarts the retry budget: with four consecutive proxy failures the call
issues 5 > 3 underlying requests, and when every request raises
`aiohttp.ClientError` the recursion exhausts ANY finite budget instead of
terminating and re-raising. -/
theorem C10_retry_recursion_unbounded :
    getSymbolsCall (fun _ => ReqOutcome.apiError) 100 = CallOut.exn 3 false
      ∧ getSymbolsCall (fun n => if n < 4 then ReqOutcome.clientError else ReqOutcome.ok) 100
          = CallOut.ret 5 true
      ∧ (∀ fuel, getSymbolsCall (fun _ => ReqOutcome.clientError) fuel = CallOut.fuelOut) := by
  refine ⟨by decide, by decide, ?_⟩
  intro fuel
  cases fuel with
  | zero => rfl
  | succ f => exact runRetry_clientError_fuelOut (f + 1) 0 2
